import Mathlib

/-!
Shallow embedding of the umeboshi Event scheduler
(src/umeboshi/models.py, src/umeboshi/routines.py, src/umeboshi/exceptions.py).

Times are modelled as natural numbers (seconds); `timedelta(hours=1)` is 3600.
Pickling (`Event.marshal_data` / `unmarshal_data`) and md5 (`Event.hash_data`)
are opaque byte-level codecs that cannot be embedded; they are modelled as the
identity encoding on the argument payload, which preserves exactly what the
scheduler observes about them (equality of blobs and of hashes).  The argument
payload itself is modelled as `List Int`.

The database is a list of persisted Event rows.  Django's per-row operations
are modelled directly: `save()` on an object with a primary key updates the
row with that key (recomputing `data_pickled`/`data_hash` from `args`, as
`Event.save` does), `delete()` removes the row and clears the in-memory pk
(so the `if self.pk:` guard in `process`'s `finally` block skips the final
save), `objects.create(...)` appends a fresh row.  Primary keys come from
Django's AutoField and are the only field distinguishing "the same row".
-/

namespace Umeboshi

/-- Model of a point in time (seconds). -/
abbrev Time := Nat

/-- Model of an argument payload (the `args` list handed to a Routine). -/
abbrev Data := List Int

/-- Event statuses, from `Event.Status` in models.py
(CREATED = 0, FAILED = -1, CANCELLED = -2, BROKEN = -3, SUCCESSFUL = 1). -/
inductive Status where
  | CREATED
  | FAILED
  | CANCELLED
  | BROKEN
  | SUCCESSFUL
deriving DecidableEq

/-- Trigger behaviors, from `TriggerBehavior` in models.py
(DELETE_AFTER_PROCESSING = 0, DEFAULT = 10, SCHEDULE_ONCE = 20,
RUN_ONCE = 30, RUN_AND_SCHEDULE_ONCE = 40, LAST_ONLY = 50). -/
inductive TriggerBehavior where
  | DELETE_AFTER_PROCESSING
  | DEFAULT
  | SCHEDULE_ONCE
  | RUN_ONCE
  | RUN_AND_SCHEDULE_ONCE
  | LAST_ONLY
deriving DecidableEq

/-- `Event.marshal_data`: `pickle.dumps`, modelled as the identity encoding. -/
def marshal_data (data : Data) : Data := data

/-- `Event.unmarshal_data`: `pickle.loads`, inverse of `marshal_data`. -/
def unmarshal_data (data : Data) : Data := data

/-- `Event.hash_data`: md5 of the marshalled blob, modelled as the identity
(the scheduler only ever compares hashes for equality; hash collisions are an
accepted approximation of the source and are not modelled). -/
def hash_data (data : Data) : Data := data

/-- One persisted Event row (models.py `Event`).  The auto-generated random
`uuid` field is not consulted by any scheduling or processing logic and is
not modelled. -/
structure Event where
  pk : Nat
  trigger_name : String
  task_group : Option String
  data_pickled : Data
  data_hash : Data
  datetime_created : Option Time
  datetime_scheduled : Time
  datetime_processed : Option Time
  status : Status
deriving DecidableEq

/-- `Event.has_data`: `len(self.data_pickled) <= 0` (note: despite the name,
true when the blob is empty). -/
def Event.has_data (e : Event) : Bool := e.data_pickled.length ≤ 0

/-- `Event.args`: `[] if self.has_data else self.unmarshal_data(self.data_pickled)`. -/
def Event.args (e : Event) : Data :=
  if e.has_data then [] else unmarshal_data e.data_pickled

/-- The field updates `Event.save` performs before writing the row:
`data_pickled = marshal_data(args)` and `data_hash = hash_data(data_pickled)`. -/
def Event.saveFields (e : Event) : Event :=
  let blob := marshal_data e.args
  { e with data_pickled := blob, data_hash := hash_data blob }

/-- The persisted table of Event rows. -/
abbrev Storage := List Event

/-- `self.save()` on an object holding primary key `e.pk`: update that row. -/
def dbSave (e : Event) (db : Storage) : Storage :=
  db.map fun x => if x.pk = e.pk then e.saveFields else x

/-- `Event.objects.create(...)`: insert a new row. -/
def dbCreate (e : Event) (db : Storage) : Storage := db ++ [e]

/-- `self.delete()`: remove the row with this primary key. -/
def dbDelete (pk : Nat) (db : Storage) : Storage :=
  db.filter fun x => x.pk ≠ pk

/-- The in-memory effect of `Event.cancel` before its `save()`:
`datetime_processed = now; status = CANCELLED`. -/
def Event.cancel (e : Event) (now : Time) : Event :=
  { e with datetime_processed := some now, status := Status.CANCELLED }

/-- `Event.cancel` as a database operation: mutate then `save()`. -/
def Event.cancelOp (e : Event) (now : Time) (db : Storage) : Storage :=
  dbSave (e.cancel now) db

/-- A registered Routine class: its three Umeboshi class attributes
(`trigger_name`, `task_group`, `behavior`) from routines.py.  `behavior` is
`none` when the class leaves it unset (`None`) or set to a value that is not
a member of the `TriggerBehavior` enum. -/
structure Routine where
  trigger_name : String
  task_group : Option String
  behavior : Option TriggerBehavior
deriving DecidableEq

/-- The `group_check` filter of `Routine.schedule`: match on `task_group`
when the class declares one, else on `trigger_name`. -/
def Routine.matchesGroup (cls : Routine) (x : Event) : Bool :=
  match cls.task_group with
  | some g => decide (x.task_group = some g)
  | none => decide (x.trigger_name = cls.trigger_name)

/-- `behavior = cls.behavior if cls.behavior in TriggerBehavior.values.keys()
else TriggerBehavior.DEFAULT` in `Routine.schedule`. -/
def Routine.effectiveBehavior (cls : Routine) : TriggerBehavior :=
  cls.behavior.getD TriggerBehavior.DEFAULT

/-- The three duplicate checks of `Routine.schedule` that raise
`DuplicateEvent`, each an `Event.objects.filter(...).exists()` query. -/
def Routine.rejectsDup (cls : Routine) (hashed_data : Data) (db : Storage) : Bool :=
  let b := cls.effectiveBehavior
  (decide (b = TriggerBehavior.RUN_AND_SCHEDULE_ONCE) &&
    db.any fun x => decide (x.data_hash = hashed_data) &&
      (decide (x.status = Status.SUCCESSFUL) || decide (x.status = Status.CREATED)) &&
      cls.matchesGroup x) ||
  (decide (b = TriggerBehavior.RUN_ONCE) &&
    db.any fun x => decide (x.data_hash = hashed_data) &&
      decide (x.status = Status.SUCCESSFUL) && cls.matchesGroup x) ||
  (decide (b = TriggerBehavior.SCHEDULE_ONCE) &&
    db.any fun x => decide (x.data_hash = hashed_data) &&
      x.datetime_processed.isNone && cls.matchesGroup x)

/-- Outcome of `Routine.schedule`: the created Event, a silent skip
(`return None` after a swallowed `DuplicateEvent`), or a propagated
`DuplicateEvent` (`silent=False`).  Each carries the resulting table. -/
inductive ScheduleResult where
  | created (ev : Event) (db : Storage)
  | skipped (db : Storage)
  | raisedDuplicate (db : Storage)
deriving DecidableEq

/-- The table a `ScheduleResult` leaves behind. -/
def ScheduleResult.db : ScheduleResult → Storage
  | .created _ db => db
  | .skipped db => db
  | .raisedDuplicate db => db

/-- The LAST_ONLY branch of `Routine.schedule`: `waiting_event.cancel()` on
every Event matching the group filter with this `data_hash` and a null
`datetime_processed` (each `cancel` mutates the row and saves it). -/
def cancelWaiting (cls : Routine) (hashed_data : Data) (now : Time)
    (db : Storage) : Storage :=
  db.map fun x =>
    if decide (x.data_hash = hashed_data) && x.datetime_processed.isNone
        && cls.matchesGroup x
    then (x.cancel now).saveFields
    else x

/-- The row built by the `Event.objects.create(...)` call at the end of
`Routine.schedule` (`datetime_created` is auto-set, `uuid` not modelled). -/
def Routine.newEvent (cls : Routine) (datetime_scheduled : Option Time)
    (args : Data) (now : Time) (newPk : Nat) : Event :=
  { pk := newPk
    trigger_name := cls.trigger_name
    task_group := cls.task_group
    data_pickled := marshal_data args
    data_hash := hash_data (marshal_data args)
    datetime_created := some now
    datetime_scheduled := datetime_scheduled.getD now
    datetime_processed := none
    status := Status.CREATED }

/-- `Routine.schedule(datetime_scheduled=None, args=None, silent=True)` from
routines.py.  `newPk` is the AutoField key the insert would assign; `now` is
`timezone.now()` during the call.  The duplicate checks run before the
LAST_ONLY cancellation loop, exactly as in the source; a raised
`DuplicateEvent` is swallowed into a skip when `silent`. -/
def Routine.schedule (cls : Routine) (datetime_scheduled : Option Time)
    (args : Data) (silent : Bool) (now : Time) (newPk : Nat)
    (db : Storage) : ScheduleResult :=
  let hashed_data := hash_data (marshal_data args)
  if cls.rejectsDup hashed_data db then
    if silent then ScheduleResult.skipped db else ScheduleResult.raisedDuplicate db
  else
    let db1 :=
      if cls.effectiveBehavior = TriggerBehavior.LAST_ONLY then
        cancelWaiting cls hashed_data now db
      else db
    let event := cls.newEvent datetime_scheduled args now newPk
    ScheduleResult.created event (dbCreate event db1)

/-- Outcome of `Event.retry_schedule`: the new Event, or the
`ValidationError("Can only reschedule a failed event.")`.  Each carries the
resulting table. -/
inductive RetryResult where
  | ok (ev : Event) (db : Storage)
  | validationError (db : Storage)
deriving DecidableEq

/-- The table a `RetryResult` leaves behind. -/
def RetryResult.db : RetryResult → Storage
  | .ok _ db => db
  | .validationError db => db

/-- The default value of `Event.retry_schedule`'s `new_datetime` parameter:
`now() + timedelta(hours=1)`.  In the source this expression is evaluated
ONCE, when models.py is imported, so the default is fixed at
`importTime + 3600` for the whole life of the process. -/
def retryDefaultDatetime (importTime : Time) : Time := importTime + 3600

/-- `Event.retry_schedule(new_datetime)` from models.py: refuse on a
SUCCESSFUL or CREATED event, else `Event.objects.create` a fresh row with
the same `trigger_name` and `args`, status CREATED, `datetime_scheduled =
new_datetime` (`task_group` is not passed and defaults to null;
`datetime_created` is auto-set to `now`).
The row that create builds is `Event.retryEvent`. -/
def Event.retryEvent (e : Event) (new_datetime : Time) (now : Time)
    (newPk : Nat) : Event :=
  { pk := newPk
    trigger_name := e.trigger_name
    task_group := none
    data_pickled := marshal_data e.args
    data_hash := hash_data (marshal_data e.args)
    datetime_created := some now
    datetime_scheduled := new_datetime
    datetime_processed := none
    status := Status.CREATED }

/-- The body of `Event.retry_schedule`: validation guard, then create. -/
def Event.retry_schedule (e : Event) (new_datetime : Time) (now : Time)
    (newPk : Nat) (db : Storage) : RetryResult :=
  if e.status = Status.SUCCESSFUL ∨ e.status = Status.CREATED then
    RetryResult.validationError db
  else
    let ev := e.retryEvent new_datetime now newPk
    RetryResult.ok ev (dbCreate ev db)

/-- How one `process()` attempt went, seen from `Event.process`'s `try`
block: a generic exception before `run()` was reached (registry lookup,
Routine construction, `check_validity` raising), `check_validity()`
returning False, `run()` returning normally, or `run()` raising a
`RoutineRunException`, a `RoutineRetryException` (optionally carrying
`new_datetime`), or any other exception. -/
inductive RoutineOutcome where
  | raisedBeforeRun
  | invalid
  | ran
  | raisedRoutineRun
  | raisedRetry (new_datetime : Option Time)
  | raisedGeneric
deriving DecidableEq

/-- `Routine._run` from routines.py: call `run()` and reclassify ANY
exception escaping it (`except Exception`) as a `RoutineRunException`.
Note that `Event.process` calls `routine.run()` directly and never calls
this wrapper; no code in the repository invokes it. -/
def Routine.wrappedRun (oc : RoutineOutcome) : RoutineOutcome :=
  match oc with
  | RoutineOutcome.ran => RoutineOutcome.ran
  | RoutineOutcome.raisedRoutineRun => RoutineOutcome.raisedRoutineRun
  | RoutineOutcome.raisedRetry _ => RoutineOutcome.raisedRoutineRun
  | RoutineOutcome.raisedGeneric => RoutineOutcome.raisedRoutineRun
  | oc => oc

/-- Result of `Event.process`: the table it leaves behind and whether the
call re-raised an exception to its caller. -/
structure ProcessResult where
  db : Storage
  raised : Bool
deriving DecidableEq

/-- `Event.process()` from models.py, with `cls` the Routine class the
registry resolves for `e.trigger_name`, `oc` how the attempt went, `now`
the value of `timezone.now()` in the `finally` block, and `importTime` the
moment models.py was imported (which fixed `retry_schedule`'s default).

The branch structure mirrors the source exactly: the success and
validity-cancel branches fall through to the DELETE_AFTER_PROCESSING check
(which, on deletion, clears the pk so the `finally` block's `if self.pk:`
skips the final save); `RoutineRunException` maps to FAILED;
`RoutineRetryException` maps to FAILED plus a `retry_schedule` call; any
other exception maps to BROKEN and is re-raised; the `finally` block sets
`datetime_processed = timezone.now()` and saves whenever the row still
exists. -/
def Event.process (e : Event) (cls : Routine) (oc : RoutineOutcome)
    (now importTime : Time) (newPk : Nat) (db : Storage) : ProcessResult :=
  match oc with
  | RoutineOutcome.raisedBeforeRun =>
      { db := dbSave { e with status := Status.BROKEN,
                              datetime_processed := some now } db
        raised := true }
  | RoutineOutcome.invalid =>
      if cls.behavior = some TriggerBehavior.DELETE_AFTER_PROCESSING then
        { db := dbDelete e.pk db, raised := false }
      else
        { db := dbSave { e with status := Status.CANCELLED,
                                datetime_processed := some now } db
          raised := false }
  | RoutineOutcome.ran =>
      if cls.behavior = some TriggerBehavior.DELETE_AFTER_PROCESSING then
        { db := dbDelete e.pk db, raised := false }
      else
        { db := dbSave { e with status := Status.SUCCESSFUL,
                                datetime_processed := some now } db
          raised := false }
  | RoutineOutcome.raisedRoutineRun =>
      { db := dbSave { e with status := Status.FAILED,
                              datetime_processed := some now } db
        raised := false }
  | RoutineOutcome.raisedRetry nd =>
      let e1 := { e with status := Status.FAILED }
      let target := nd.getD (retryDefaultDatetime importTime)
      match e1.retry_schedule target now newPk db with
      | RetryResult.ok _ db1 =>
          { db := dbSave { e1 with datetime_processed := some now } db1
            raised := false }
      | RetryResult.validationError db1 =>
          { db := dbSave { e1 with datetime_processed := some now } db1
            raised := true }
  | RoutineOutcome.raisedGeneric =>
      { db := dbSave { e with status := Status.BROKEN,
                              datetime_processed := some now } db
        raised := true }

/-- One row satisfying the processed/status invariant:
`datetime_processed` is non-null iff `status != CREATED`. -/
def eventOk (e : Event) : Prop :=
  e.datetime_processed ≠ none ↔ e.status ≠ Status.CREATED

/-- The processed/status invariant over the whole table. -/
def dbInvariant (db : Storage) : Prop := ∀ e ∈ db, eventOk e

instance (e : Event) : Decidable (eventOk e) := by
  unfold eventOk; infer_instance

instance (db : Storage) : Decidable (dbInvariant db) := by
  unfold dbInvariant; infer_instance

/-- A Routine class with no task group and no declared behavior. -/
def sampleRoutine : Routine :=
  { trigger_name := "t", task_group := none, behavior := none }

/-- A freshly scheduled Event for `sampleRoutine` with args `[7]`. -/
def sampleEvent : Event :=
  { pk := 1
    trigger_name := "t"
    task_group := none
    data_pickled := [7]
    data_hash := [7]
    datetime_created := some 0
    datetime_scheduled := 10
    datetime_processed := none
    status := Status.CREATED }

/-- Claim C1: the spec says a generic exception from the Routine's `run()` is
reclassified as `RoutineRunException`, the Event ends FAILED and the error is
swallowed.  The code disagrees: `Event.process` calls `routine.run()`
directly and never the `Routine._run` wrapper that performs the
reclassification, so a generic exception falls through to the bare `except:`
— the Event is marked BROKEN and the error re-raised.  This theorem
evaluates both `process` on a generic `run()` exception (BROKEN, re-raised)
and `process` on the `_run`-wrapped outcome the spec and the source's own
`Status.FAILED` doc comment describe (FAILED, swallowed). -/
theorem c1_generic_run_exception_goes_broken_and_reraises :
    (sampleEvent.process sampleRoutine RoutineOutcome.raisedGeneric 20 0 2
        [sampleEvent]).raised = true
    ∧ (sampleEvent.process sampleRoutine RoutineOutcome.raisedGeneric 20 0 2
        [sampleEvent]).db
      = [{ sampleEvent with status := Status.BROKEN,
                            datetime_processed := some 20 }]
    ∧ (sampleEvent.process sampleRoutine
        (Routine.wrappedRun RoutineOutcome.raisedGeneric) 20 0 2
        [sampleEvent]).raised = false
    ∧ (sampleEvent.process sampleRoutine
        (Routine.wrappedRun RoutineOutcome.raisedGeneric) 20 0 2
        [sampleEvent]).db
      = [{ sampleEvent with status := Status.FAILED,
                            datetime_processed := some 20 }] := by
  decide

/-- Claim C6: on `RoutineRetryException` the original Event goes FAILED and
exactly one new CREATED Event appears; a carried target datetime is honored
(here 500).  But when no target is carried, the default is NOT "one hour
after the current time of the call": the source evaluates
`now() + timedelta(hours=1)` once at module import, so a call at time 100
(with models.py imported at time 0) schedules the retry at 3600, not 3700. -/
theorem c6_retry_default_fixed_at_import_time :
    (∃ x ∈ (sampleEvent.process sampleRoutine
        (RoutineOutcome.raisedRetry (some 500)) 100 0 2 [sampleEvent]).db,
        x.pk = 2 ∧ x.status = Status.CREATED ∧ x.datetime_scheduled = 500)
    ∧ ((sampleEvent.process sampleRoutine (RoutineOutcome.raisedRetry none)
          100 0 2 [sampleEvent]).db.map
        fun x => (x.pk, x.status, x.datetime_scheduled))
      = [(1, Status.FAILED, 10), (2, Status.CREATED, 3600)]
    ∧ retryDefaultDatetime 0 = 3600
    ∧ retryDefaultDatetime 0 ≠ 100 + 3600 := by
  decide

/-- A Routine class with behavior DELETE_AFTER_PROCESSING. -/
def deleteRoutine : Routine :=
  { trigger_name := "t", task_group := none,
    behavior := some TriggerBehavior.DELETE_AFTER_PROCESSING }

/-- Fields untouched by `Event.saveFields`. -/
theorem saveFields_pk (e : Event) : e.saveFields.pk = e.pk := rfl

theorem saveFields_status (e : Event) : e.saveFields.status = e.status := rfl

theorem saveFields_processed (e : Event) :
    e.saveFields.datetime_processed = e.datetime_processed := rfl

theorem saveFields_scheduled (e : Event) :
    e.saveFields.datetime_scheduled = e.datetime_scheduled := rfl

/-- Updating a row that is present leaves its saved image in the table. -/
theorem dbSave_mem (e : Event) {x : Event} {db : Storage} (hx : x ∈ db)
    (hpk : x.pk = e.pk) : e.saveFields ∈ dbSave e db := by
  unfold dbSave
  have h := List.mem_map_of_mem (fun y => if y.pk = e.pk then e.saveFields else y) hx
  simpa [hpk] using h

/-- Claim C2, counterexample: for a DELETE_AFTER_PROCESSING Routine whose
`run()` raises a `RoutineRunException`, the claim says the Event row no
longer exists after `process()`; in the code the `self.delete()` call sits
inside the `try` block after the success/cancel branch, so the exception
skips it and the row survives as FAILED with `datetime_processed` set. -/
theorem c2_failed_delete_event_row_survives :
    (sampleEvent.process deleteRoutine RoutineOutcome.raisedRoutineRun 20 0 2
        [sampleEvent]).db
      = [{ sampleEvent with status := Status.FAILED,
                            datetime_processed := some 20 }] := by
  decide

/-- Claim C2, amended: for a DELETE_AFTER_PROCESSING Routine, `process()`
removes the Event row only on the success and validity-cancellation
outcomes; on the failed (RoutineRunException), broken, and retry outcomes
the deletion is skipped and the row survives with its terminal status and
`datetime_processed` set. -/
theorem c2_delete_only_on_success_or_cancellation (e : Event) (cls : Routine)
    (now it pk : Nat) (db : Storage)
    (hb : cls.behavior = some TriggerBehavior.DELETE_AFTER_PROCESSING)
    (he : e ∈ db) :
    (∀ x ∈ (e.process cls RoutineOutcome.ran now it pk db).db, x.pk ≠ e.pk)
    ∧ (∀ x ∈ (e.process cls RoutineOutcome.invalid now it pk db).db, x.pk ≠ e.pk)
    ∧ (∃ x ∈ (e.process cls RoutineOutcome.raisedRoutineRun now it pk db).db,
        x.pk = e.pk ∧ x.status = Status.FAILED ∧ x.datetime_processed = some now)
    ∧ (∃ x ∈ (e.process cls RoutineOutcome.raisedGeneric now it pk db).db,
        x.pk = e.pk ∧ x.status = Status.BROKEN ∧ x.datetime_processed = some now)
    ∧ (∀ nd, ∃ x ∈ (e.process cls (RoutineOutcome.raisedRetry nd) now it pk db).db,
        x.pk = e.pk ∧ x.status = Status.FAILED ∧ x.datetime_processed = some now) := by
  refine ⟨?_, ?_, ?_, ?_, ?_⟩
  · intro x hx
    simp only [Event.process, hb, if_pos rfl, dbDelete] at hx
    have h := List.mem_filter.mp hx
    exact of_decide_eq_true h.2
  · intro x hx
    simp only [Event.process, hb, if_pos rfl, dbDelete] at hx
    have h := List.mem_filter.mp hx
    exact of_decide_eq_true h.2
  · exact ⟨_, dbSave_mem _ he rfl, rfl, rfl, rfl⟩
  · exact ⟨_, dbSave_mem _ he rfl, rfl, rfl, rfl⟩
  · intro nd
    exact ⟨_, dbSave_mem _ (List.mem_append_left _ he) rfl, rfl, rfl, rfl⟩

/-- Witness for `c2_delete_only_on_success_or_cancellation` at a concrete
event and table. -/
theorem c2_delete_only_on_success_or_cancellation_witness :
    (∀ x ∈ (sampleEvent.process deleteRoutine RoutineOutcome.ran 20 0 2
        [sampleEvent]).db, x.pk ≠ sampleEvent.pk)
    ∧ (∀ x ∈ (sampleEvent.process deleteRoutine RoutineOutcome.invalid 20 0 2
        [sampleEvent]).db, x.pk ≠ sampleEvent.pk)
    ∧ (∃ x ∈ (sampleEvent.process deleteRoutine RoutineOutcome.raisedRoutineRun
        20 0 2 [sampleEvent]).db,
        x.pk = sampleEvent.pk ∧ x.status = Status.FAILED
          ∧ x.datetime_processed = some 20)
    ∧ (∃ x ∈ (sampleEvent.process deleteRoutine RoutineOutcome.raisedGeneric
        20 0 2 [sampleEvent]).db,
        x.pk = sampleEvent.pk ∧ x.status = Status.BROKEN
          ∧ x.datetime_processed = some 20)
    ∧ (∀ nd, ∃ x ∈ (sampleEvent.process deleteRoutine
        (RoutineOutcome.raisedRetry nd) 20 0 2 [sampleEvent]).db,
        x.pk = sampleEvent.pk ∧ x.status = Status.FAILED
          ∧ x.datetime_processed = some 20) :=
  c2_delete_only_on_success_or_cancellation sampleEvent deleteRoutine 20 0 2
    [sampleEvent] rfl (by simp)

/-- A Routine class with behavior SCHEDULE_ONCE. -/
def onceRoutine : Routine :=
  { trigger_name := "t", task_group := none,
    behavior := some TriggerBehavior.SCHEDULE_ONCE }

/-- A Routine class with behavior LAST_ONLY. -/
def lastOnlyRoutine : Routine :=
  { trigger_name := "t", task_group := none,
    behavior := some TriggerBehavior.LAST_ONLY }

/-- A declared behavior that is a member of the enum is used as-is. -/
theorem effectiveBehavior_some {cls : Routine} {b : TriggerBehavior}
    (hb : cls.behavior = some b) : cls.effectiveBehavior = b := by
  simp [Routine.effectiveBehavior, hb]

/-- A rejected schedule call: skip when silent, propagate otherwise;
either way the table is returned unchanged. -/
theorem schedule_of_rejects {cls : Routine} {args : Data} {db : Storage}
    (h : cls.rejectsDup (hash_data (marshal_data args)) db = true)
    (dt : Option Time) (silent : Bool) (now pk : Nat) :
    cls.schedule dt args silent now pk db
      = if silent then ScheduleResult.skipped db
        else ScheduleResult.raisedDuplicate db := by
  simp [Routine.schedule, h]

/-- An accepted schedule call creates the new row (after the LAST_ONLY
cancellation sweep, when that behavior is in force). -/
theorem schedule_of_not_rejects {cls : Routine} {args : Data} {db : Storage}
    (h : cls.rejectsDup (hash_data (marshal_data args)) db = false)
    (dt : Option Time) (silent : Bool) (now pk : Nat) :
    cls.schedule dt args silent now pk db
      = ScheduleResult.created (cls.newEvent dt args now pk)
          (dbCreate (cls.newEvent dt args now pk)
            (if cls.effectiveBehavior = TriggerBehavior.LAST_ONLY
             then cancelWaiting cls (hash_data (marshal_data args)) now db
             else db)) := by
  simp [Routine.schedule, h]

/-- Under SCHEDULE_ONCE only the unprocessed-duplicate query is consulted. -/
theorem rejectsDup_schedule_once {cls : Routine}
    (hb : cls.effectiveBehavior = TriggerBehavior.SCHEDULE_ONCE)
    (hashed : Data) (db : Storage) :
    cls.rejectsDup hashed db
      = db.any fun x => decide (x.data_hash = hashed)
          && x.datetime_processed.isNone && cls.matchesGroup x := by
  simp [Routine.rejectsDup, hb]

/-- Claim C7: for every schedule call rejected by the trigger-behavior
policy, `silent=True` yields no Event and no error with the table unchanged,
and `silent=False` raises DuplicateEvent with the table unchanged. -/
theorem c7_rejected_schedule_silent_flag (cls : Routine) (dt : Option Time)
    (args : Data) (now pk : Nat) (db : Storage)
    (h : cls.rejectsDup (hash_data (marshal_data args)) db = true) :
    cls.schedule dt args true now pk db = ScheduleResult.skipped db
    ∧ cls.schedule dt args false now pk db = ScheduleResult.raisedDuplicate db :=
  ⟨schedule_of_rejects h dt true now pk, schedule_of_rejects h dt false now pk⟩

/-- Witness for `c7_rejected_schedule_silent_flag`: a SCHEDULE_ONCE class
with an unprocessed Event already stored for the same hash and trigger. -/
theorem c7_rejected_schedule_silent_flag_witness :
    onceRoutine.schedule none [7] true 30 2 [sampleEvent]
        = ScheduleResult.skipped [sampleEvent]
    ∧ onceRoutine.schedule none [7] false 30 2 [sampleEvent]
        = ScheduleResult.raisedDuplicate [sampleEvent] :=
  c7_rejected_schedule_silent_flag onceRoutine none [7] 30 2 [sampleEvent]
    (by decide)

/-- Claim C3: under SCHEDULE_ONCE, a schedule call is rejected as a
duplicate iff some stored Event with the same `data_hash` and the same
group key has `datetime_processed` still null (no constraint on its
status); when no such Event remains, the identical schedule succeeds and
creates the new row. -/
theorem c3_schedule_once_rejects_iff_unprocessed_duplicate (cls : Routine)
    (dt : Option Time) (args : Data) (now pk : Nat) (db : Storage)
    (hb : cls.behavior = some TriggerBehavior.SCHEDULE_ONCE) :
    (cls.schedule dt args false now pk db = ScheduleResult.raisedDuplicate db
      ↔ ∃ x ∈ db, x.data_hash = hash_data (marshal_data args)
          ∧ x.datetime_processed = none ∧ cls.matchesGroup x = true)
    ∧ ((¬ ∃ x ∈ db, x.data_hash = hash_data (marshal_data args)
          ∧ x.datetime_processed = none ∧ cls.matchesGroup x = true) →
        cls.schedule dt args false now pk db
          = ScheduleResult.created (cls.newEvent dt args now pk)
              (dbCreate (cls.newEvent dt args now pk) db)) := by
  have hb' := effectiveBehavior_some hb
  have hiff : cls.rejectsDup (hash_data (marshal_data args)) db = true
      ↔ ∃ x ∈ db, x.data_hash = hash_data (marshal_data args)
          ∧ x.datetime_processed = none ∧ cls.matchesGroup x = true := by
    rw [rejectsDup_schedule_once hb']
    simp [List.any_eq_true, Option.isNone_iff_eq_none, and_assoc]
  have hcreated : cls.rejectsDup (hash_data (marshal_data args)) db = false →
      cls.schedule dt args false now pk db
        = ScheduleResult.created (cls.newEvent dt args now pk)
            (dbCreate (cls.newEvent dt args now pk) db) := by
    intro h0
    rw [schedule_of_not_rejects h0 dt false now pk, hb']
    simp
  constructor
  · constructor
    · intro hsch
      cases hcase : cls.rejectsDup (hash_data (marshal_data args)) db with
      | true => exact hiff.mp hcase
      | false =>
          rw [hcreated hcase] at hsch
          simp at hsch
    · intro hex
      exact schedule_of_rejects (hiff.mpr hex) dt false now pk
  · intro hnex
    cases hcase : cls.rejectsDup (hash_data (marshal_data args)) db with
    | true => exact absurd (hiff.mp hcase) hnex
    | false => exact hcreated hcase

/-- Witness for `c3_schedule_once_rejects_iff_unprocessed_duplicate` at a
concrete SCHEDULE_ONCE class over a one-row table. -/
theorem c3_schedule_once_rejects_iff_unprocessed_duplicate_witness :
    (onceRoutine.schedule none [7] false 30 2 [sampleEvent]
        = ScheduleResult.raisedDuplicate [sampleEvent]
      ↔ ∃ x ∈ [sampleEvent], x.data_hash = hash_data (marshal_data [7])
          ∧ x.datetime_processed = none ∧ onceRoutine.matchesGroup x = true)
    ∧ ((¬ ∃ x ∈ [sampleEvent], x.data_hash = hash_data (marshal_data [7])
          ∧ x.datetime_processed = none ∧ onceRoutine.matchesGroup x = true) →
        onceRoutine.schedule none [7] false 30 2 [sampleEvent]
          = ScheduleResult.created (onceRoutine.newEvent none [7] 30 2)
              (dbCreate (onceRoutine.newEvent none [7] 30 2) [sampleEvent])) :=
  c3_schedule_once_rejects_iff_unprocessed_duplicate onceRoutine none [7] 30 2
    [sampleEvent] rfl

/-- Claim C9: a class whose (normalized) behavior is DELETE_AFTER_PROCESSING
— or anything outside the enum, normalized to DEFAULT — gets no duplicate
check and no cancellation sweep from `schedule`: it always creates the new
row over the unchanged table, exactly as a DEFAULT-behavior class would. -/
theorem c9_non_dedup_behavior_schedules_like_default (cls : Routine)
    (dt : Option Time) (args : Data) (silent : Bool) (now pk : Nat)
    (db : Storage)
    (hb : cls.behavior = some TriggerBehavior.DELETE_AFTER_PROCESSING
        ∨ cls.behavior = none) :
    cls.schedule dt args silent now pk db
      = ScheduleResult.created (cls.newEvent dt args now pk)
          (dbCreate (cls.newEvent dt args now pk) db)
    ∧ cls.schedule dt args silent now pk db
      = Routine.schedule { cls with behavior := some TriggerBehavior.DEFAULT }
          dt args silent now pk db := by
  have hbe : cls.effectiveBehavior = TriggerBehavior.DELETE_AFTER_PROCESSING
      ∨ cls.effectiveBehavior = TriggerBehavior.DEFAULT := by
    rcases hb with hb | hb
    · exact Or.inl (effectiveBehavior_some hb)
    · exact Or.inr (by simp [Routine.effectiveBehavior, hb])
  have h0 : cls.rejectsDup (hash_data (marshal_data args)) db = false := by
    rcases hbe with hbe | hbe <;> simp [Routine.rejectsDup, hbe]
  have h1 : cls.schedule dt args silent now pk db
      = ScheduleResult.created (cls.newEvent dt args now pk)
          (dbCreate (cls.newEvent dt args now pk) db) := by
    rw [schedule_of_not_rejects h0 dt silent now pk]
    rcases hbe with hbe | hbe <;> rw [hbe] <;> simp
  refine ⟨h1, ?_⟩
  have h0d : Routine.rejectsDup
      { cls with behavior := some TriggerBehavior.DEFAULT }
      (hash_data (marshal_data args)) db = false := by
    simp [Routine.rejectsDup, Routine.effectiveBehavior]
  rw [h1, schedule_of_not_rejects h0d dt silent now pk]
  simp only [Routine.effectiveBehavior, Option.getD_some, reduceCtorEq, if_false,
    reduceIte]
  rfl

/-- Witness for `c9_non_dedup_behavior_schedules_like_default`:
a DELETE_AFTER_PROCESSING class scheduling over a one-row table. -/
theorem c9_non_dedup_behavior_schedules_like_default_witness :
    deleteRoutine.schedule none [7] true 30 2 [sampleEvent]
      = ScheduleResult.created (deleteRoutine.newEvent none [7] 30 2)
          (dbCreate (deleteRoutine.newEvent none [7] 30 2) [sampleEvent])
    ∧ deleteRoutine.schedule none [7] true 30 2 [sampleEvent]
      = Routine.schedule
          { deleteRoutine with behavior := some TriggerBehavior.DEFAULT }
          none [7] true 30 2 [sampleEvent] :=
  c9_non_dedup_behavior_schedules_like_default deleteRoutine none [7] true 30 2
    [sampleEvent] (Or.inl rfl)

/-- Claim C4: under LAST_ONLY, `schedule` never rejects; before creating the
new Event it cancels (status CANCELLED, `datetime_processed = now`) every
stored Event with the same `data_hash` and group key whose
`datetime_processed` is null, and every already-processed Event survives
unchanged. -/
theorem c4_last_only_cancels_waiting_then_creates (cls : Routine)
    (dt : Option Time) (args : Data) (silent : Bool) (now pk : Nat)
    (db : Storage) (hb : cls.behavior = some TriggerBehavior.LAST_ONLY) :
    ∃ ev db2,
      cls.schedule dt args silent now pk db = ScheduleResult.created ev db2
      ∧ ev.status = Status.CREATED ∧ ev.datetime_processed = none
      ∧ db2.length = db.length + 1
      ∧ (∀ x ∈ db, x.data_hash = hash_data (marshal_data args) →
          x.datetime_processed = none → cls.matchesGroup x = true →
          ∃ y ∈ db2, y.pk = x.pk ∧ y.status = Status.CANCELLED
            ∧ y.datetime_processed = some now)
      ∧ (∀ x ∈ db, x.datetime_processed ≠ none → x ∈ db2) := by
  have hb' := effectiveBehavior_some hb
  have h0 : cls.rejectsDup (hash_data (marshal_data args)) db = false := by
    simp [Routine.rejectsDup, hb']
  refine ⟨cls.newEvent dt args now pk,
    dbCreate (cls.newEvent dt args now pk)
      (cancelWaiting cls (hash_data (marshal_data args)) now db),
    ?_, rfl, rfl, ?_, ?_, ?_⟩
  · rw [schedule_of_not_rejects h0 dt silent now pk, hb']
    simp
  · simp [dbCreate, cancelWaiting]
  · intro x hx h1 h2 h3
    have hcond : (decide (x.data_hash = hash_data (marshal_data args))
        && x.datetime_processed.isNone && cls.matchesGroup x) = true := by
      simp [h1, h2, h3]
    refine ⟨(x.cancel now).saveFields, ?_, rfl, rfl, rfl⟩
    unfold dbCreate
    apply List.mem_append_left
    unfold cancelWaiting
    exact List.mem_map.mpr ⟨x, hx, by rw [if_pos hcond]⟩
  · intro x hx hproc
    have hcond : (decide (x.data_hash = hash_data (marshal_data args))
        && x.datetime_processed.isNone && cls.matchesGroup x) = false := by
      cases hpc : x.datetime_processed with
      | none => exact absurd hpc hproc
      | some t => simp [hpc]
    unfold dbCreate
    apply List.mem_append_left
    unfold cancelWaiting
    exact List.mem_map.mpr ⟨x, hx, by simp [hcond]⟩

/-- Witness for `c4_last_only_cancels_waiting_then_creates`: a LAST_ONLY
class scheduling over a table holding one waiting Event with the same hash. -/
theorem c4_last_only_cancels_waiting_then_creates_witness :
    ∃ ev db2,
      lastOnlyRoutine.schedule none [7] true 30 2 [sampleEvent]
        = ScheduleResult.created ev db2
      ∧ ev.status = Status.CREATED ∧ ev.datetime_processed = none
      ∧ db2.length = [sampleEvent].length + 1
      ∧ (∀ x ∈ [sampleEvent], x.data_hash = hash_data (marshal_data [7]) →
          x.datetime_processed = none → lastOnlyRoutine.matchesGroup x = true →
          ∃ y ∈ db2, y.pk = x.pk ∧ y.status = Status.CANCELLED
            ∧ y.datetime_processed = some 30)
      ∧ (∀ x ∈ [sampleEvent], x.datetime_processed ≠ none → x ∈ db2) :=
  c4_last_only_cancels_waiting_then_creates lastOnlyRoutine none [7] true 30 2
    [sampleEvent] rfl

/-- With the identity codec, `Event.args` is the stored blob (the
`has_data`/empty-blob special case collapses into the same value). -/
theorem Event.args_eq_data_pickled (e : Event) : e.args = e.data_pickled := by
  unfold Event.args
  by_cases h : e.has_data = true
  · rw [if_pos h]
    unfold Event.has_data at h
    have h0 : e.data_pickled.length = 0 := Nat.le_zero.mp (of_decide_eq_true h)
    exact (List.length_eq_zero.mp h0).symm
  · rw [if_neg h]
    rfl

/-- A terminally failed Event (the shape `process` leaves behind). -/
def failedEvent : Event :=
  { sampleEvent with status := Status.FAILED, datetime_processed := some 20 }

/-- Claim C5: `retry_schedule` on a SUCCESSFUL or CREATED Event raises the
validation error and leaves the table unchanged (no new row); on any other
status it creates and returns a brand-new Event with the same
`trigger_name` and `args`, status CREATED and `datetime_scheduled` equal to
the target, with every pre-existing row (the original included) untouched. -/
theorem c5_retry_schedule_validates_then_creates (e : Event)
    (target now pk : Nat) (db : Storage) :
    ((e.status = Status.SUCCESSFUL ∨ e.status = Status.CREATED) →
      e.retry_schedule target now pk db = RetryResult.validationError db)
    ∧ (¬(e.status = Status.SUCCESSFUL ∨ e.status = Status.CREATED) →
      e.retry_schedule target now pk db
        = RetryResult.ok (e.retryEvent target now pk)
            (dbCreate (e.retryEvent target now pk) db)
      ∧ (e.retryEvent target now pk).trigger_name = e.trigger_name
      ∧ (e.retryEvent target now pk).args = e.args
      ∧ (e.retryEvent target now pk).status = Status.CREATED
      ∧ (e.retryEvent target now pk).datetime_scheduled = target
      ∧ ∀ x ∈ db, x ∈ dbCreate (e.retryEvent target now pk) db) := by
  constructor
  · intro h
    unfold Event.retry_schedule
    rw [if_pos h]
  · intro h
    refine ⟨?_, rfl, ?_, rfl, rfl, ?_⟩
    · unfold Event.retry_schedule
      rw [if_neg h]
    · rw [Event.args_eq_data_pickled]
      rfl
    · intro x hx
      exact List.mem_append_left _ hx

/-- Witness for `c5_retry_schedule_validates_then_creates` at a FAILED
Event (creation side) — the validation side is vacuous there. -/
theorem c5_retry_schedule_validates_then_creates_witness :
    ((failedEvent.status = Status.SUCCESSFUL
        ∨ failedEvent.status = Status.CREATED) →
      failedEvent.retry_schedule 500 30 2 [failedEvent]
        = RetryResult.validationError [failedEvent])
    ∧ (¬(failedEvent.status = Status.SUCCESSFUL
        ∨ failedEvent.status = Status.CREATED) →
      failedEvent.retry_schedule 500 30 2 [failedEvent]
        = RetryResult.ok (failedEvent.retryEvent 500 30 2)
            (dbCreate (failedEvent.retryEvent 500 30 2) [failedEvent])
      ∧ (failedEvent.retryEvent 500 30 2).trigger_name = failedEvent.trigger_name
      ∧ (failedEvent.retryEvent 500 30 2).args = failedEvent.args
      ∧ (failedEvent.retryEvent 500 30 2).status = Status.CREATED
      ∧ (failedEvent.retryEvent 500 30 2).datetime_scheduled = 500
      ∧ ∀ x ∈ [failedEvent],
          x ∈ dbCreate (failedEvent.retryEvent 500 30 2) [failedEvent]) :=
  c5_retry_schedule_validates_then_creates failedEvent 500 30 2 [failedEvent]

/-- Claim C10: the Event created by `retry_schedule` carries no
`task_group` (only `trigger_name`, `args`, status, `datetime_scheduled` are
passed to the create call), so for any Routine class that declares a
`task_group` the retry Event fails the group filter used by the duplicate
queries. -/
theorem c10_retry_event_falls_outside_task_group (e : Event)
    (target now pk : Nat) (db : Storage)
    (h : ¬(e.status = Status.SUCCESSFUL ∨ e.status = Status.CREATED)) :
    e.retry_schedule target now pk db
      = RetryResult.ok (e.retryEvent target now pk)
          (dbCreate (e.retryEvent target now pk) db)
    ∧ (e.retryEvent target now pk).task_group = none
    ∧ ∀ cls : Routine, cls.task_group ≠ none →
        cls.matchesGroup (e.retryEvent target now pk) = false := by
  refine ⟨?_, rfl, ?_⟩
  · unfold Event.retry_schedule
    rw [if_neg h]
  · intro cls hcl
    unfold Routine.matchesGroup
    cases hc : cls.task_group with
    | none => exact absurd hc hcl
    | some g => simp [Event.retryEvent]

/-- Witness for `c10_retry_event_falls_outside_task_group` at a FAILED
Event. -/
theorem c10_retry_event_falls_outside_task_group_witness :
    failedEvent.retry_schedule 500 30 2 []
      = RetryResult.ok (failedEvent.retryEvent 500 30 2)
          (dbCreate (failedEvent.retryEvent 500 30 2) [])
    ∧ (failedEvent.retryEvent 500 30 2).task_group = none
    ∧ ∀ cls : Routine, cls.task_group ≠ none →
        cls.matchesGroup (failedEvent.retryEvent 500 30 2) = false :=
  c10_retry_event_falls_outside_task_group failedEvent 500 30 2 [] (by decide)

/-- Updating a row keeps the invariant when the written row satisfies it. -/
theorem dbInvariant_dbSave {e : Event} {db : Storage} (hinv : dbInvariant db)
    (he : eventOk e) : dbInvariant (dbSave e db) := by
  intro x hx
  unfold dbSave at hx
  obtain ⟨y, hy, rfl⟩ := List.mem_map.mp hx
  by_cases hpk : y.pk = e.pk
  · rw [if_pos hpk]
    exact he
  · rw [if_neg hpk]
    exact hinv y hy

/-- Inserting a row keeps the invariant when the new row satisfies it. -/
theorem dbInvariant_dbCreate {e : Event} {db : Storage} (hinv : dbInvariant db)
    (he : eventOk e) : dbInvariant (dbCreate e db) := by
  intro x hx
  unfold dbCreate at hx
  rcases List.mem_append.mp hx with hx | hx
  · exact hinv x hx
  · rw [List.mem_singleton.mp hx]
    exact he

/-- Deleting rows keeps the invariant. -/
theorem dbInvariant_dbDelete {pk : Nat} {db : Storage}
    (hinv : dbInvariant db) : dbInvariant (dbDelete pk db) := by
  intro x hx
  exact hinv x (List.mem_of_mem_filter hx)

/-- The LAST_ONLY cancellation sweep keeps the invariant (a cancelled row is
CANCELLED with `datetime_processed` set). -/
theorem dbInvariant_cancelWaiting {cls : Routine} {hashed : Data} {now : Time}
    {db : Storage} (hinv : dbInvariant db) :
    dbInvariant (cancelWaiting cls hashed now db) := by
  intro x hx
  unfold cancelWaiting at hx
  obtain ⟨y, hy, rfl⟩ := List.mem_map.mp hx
  by_cases hc : (decide (y.data_hash = hashed) && y.datetime_processed.isNone
      && cls.matchesGroup y) = true
  · rw [if_pos hc]
    show some now ≠ none ↔ Status.CANCELLED ≠ Status.CREATED
    simp
  · rw [if_neg hc]
    exact hinv y hy

/-- Claim C8: every operation — `schedule` (any behavior, any outcome),
`process` (any outcome), `cancel`, `retry_schedule` (both branches) —
preserves the invariant that a persisted Event has `datetime_processed`
non-null iff its status is not CREATED. -/
theorem c8_processed_iff_noncreated_preserved (db : Storage)
    (hinv : dbInvariant db) :
    (∀ (cls : Routine) (dt : Option Time) (args : Data) (silent : Bool)
        (now pk : Nat),
        dbInvariant (cls.schedule dt args silent now pk db).db)
    ∧ (∀ (e : Event) (cls : Routine) (oc : RoutineOutcome)
        (now importTime pk : Nat),
        dbInvariant (e.process cls oc now importTime pk db).db)
    ∧ (∀ (e : Event) (now : Time), dbInvariant (e.cancelOp now db))
    ∧ (∀ (e : Event) (target now pk : Nat),
        dbInvariant (e.retry_schedule target now pk db).db) := by
  refine ⟨?_, ?_, ?_, ?_⟩
  · intro cls dt args silent now pk
    cases hre : cls.rejectsDup (hash_data (marshal_data args)) db with
    | true =>
        rw [schedule_of_rejects hre dt silent now pk]
        cases silent
        · exact hinv
        · exact hinv
    | false =>
        rw [schedule_of_not_rejects hre dt silent now pk]
        show dbInvariant (dbCreate _ _)
        apply dbInvariant_dbCreate
        · by_cases hl : cls.effectiveBehavior = TriggerBehavior.LAST_ONLY
          · rw [if_pos hl]
            exact dbInvariant_cancelWaiting hinv
          · rw [if_neg hl]
            exact hinv
        · show none ≠ none ↔ Status.CREATED ≠ Status.CREATED
          simp
  · intro e cls oc now importTime pk
    cases oc with
    | raisedBeforeRun =>
        apply dbInvariant_dbSave hinv
        show some now ≠ none ↔ Status.BROKEN ≠ Status.CREATED
        simp
    | invalid =>
        simp only [Event.process]
        by_cases hd : cls.behavior = some TriggerBehavior.DELETE_AFTER_PROCESSING
        · rw [if_pos hd]
          exact dbInvariant_dbDelete hinv
        · rw [if_neg hd]
          apply dbInvariant_dbSave hinv
          show some now ≠ none ↔ Status.CANCELLED ≠ Status.CREATED
          simp
    | ran =>
        simp only [Event.process]
        by_cases hd : cls.behavior = some TriggerBehavior.DELETE_AFTER_PROCESSING
        · rw [if_pos hd]
          exact dbInvariant_dbDelete hinv
        · rw [if_neg hd]
          apply dbInvariant_dbSave hinv
          show some now ≠ none ↔ Status.SUCCESSFUL ≠ Status.CREATED
          simp
    | raisedRoutineRun =>
        apply dbInvariant_dbSave hinv
        show some now ≠ none ↔ Status.FAILED ≠ Status.CREATED
        simp
    | raisedRetry nd =>
        show dbInvariant (dbSave _ (dbCreate _ db))
        apply dbInvariant_dbSave
        · apply dbInvariant_dbCreate hinv
          show none ≠ none ↔ Status.CREATED ≠ Status.CREATED
          simp
        · show some now ≠ none ↔ Status.FAILED ≠ Status.CREATED
          simp
    | raisedGeneric =>
        apply dbInvariant_dbSave hinv
        show some now ≠ none ↔ Status.BROKEN ≠ Status.CREATED
        simp
  · intro e now
    apply dbInvariant_dbSave hinv
    show some now ≠ none ↔ Status.CANCELLED ≠ Status.CREATED
    simp
  · intro e target now pk
    unfold Event.retry_schedule
    by_cases h : e.status = Status.SUCCESSFUL ∨ e.status = Status.CREATED
    · rw [if_pos h]
      exact hinv
    · rw [if_neg h]
      apply dbInvariant_dbCreate hinv
      show none ≠ none ↔ Status.CREATED ≠ Status.CREATED
      simp

/-- Witness for `c8_processed_iff_noncreated_preserved` over a one-row
table, exercising the `process` conjunct on a successful run. -/
theorem c8_processed_iff_noncreated_preserved_witness :
    dbInvariant ((sampleEvent.process sampleRoutine RoutineOutcome.ran 20 0 2
      [sampleEvent]).db) :=
  (c8_processed_iff_noncreated_preserved [sampleEvent] (by decide)).2.1
    sampleEvent sampleRoutine RoutineOutcome.ran 20 0 2

end Umeboshi
